import Mathlib

/-!
# Verification of the 8-bit ALU simulator

Shallow embedding of the `ALU` class of `alu_simulator.py`.  The Python
class keeps two mutable fields, `self.result` (an 8-bit result register)
and `self.flags` (a dict with keys Z, N, C, V holding 0/1); we model the
pair as an explicit `ALUState` record and thread it through every method.
Python's flag values 0/1 become `Bool`; Python's `x & 0xFF` masking is
embedded as `% 256` (`Int.emod` for possibly negative values), and `~x`
as `Int` complement, which agree with Python's arbitrary-precision
two's-complement bitwise semantics.

`execute` can raise `ValueError` on an invalid opcode; since the raise
happens after `self.flags` has already been reset, the embedding returns
the pair of the call's outcome (`Except String (Nat × Flags)` — the
Python return value `(self.result, self.flags.copy())`) and the state of
the object after the call, whether it raised or not.
-/

namespace ALUSim

/-- The four status flags of the ALU: Zero, Negative, Carry, Overflow.
Python stores them as 0/1 integers in a dict; we use booleans. -/
structure Flags where
  Z : Bool
  N : Bool
  C : Bool
  V : Bool
  deriving DecidableEq, Repr

/-- The mutable state of an `ALU` object: `self.result` and `self.flags`. -/
structure ALUState where
  result : Nat
  flags : Flags
  deriving DecidableEq, Repr

/-- `ALU.__init__`: result 0, all flags clear. -/
def initState : ALUState := ⟨0, ⟨false, false, false, false⟩⟩

/-- The flag dict `{'Z': 0, 'N': 0, 'C': 0, 'V': 0}` assigned at the start
of every `execute` call. -/
def flagsReset : Flags := ⟨false, false, false, false⟩

/-- Opcode constant `ALU.OP_ADD`. -/
def OP_ADD : Int := 0

/-- Opcode constant `ALU.OP_SUB`. -/
def OP_SUB : Int := 1

/-- Opcode constant `ALU.OP_AND`. -/
def OP_AND : Int := 2

/-- Opcode constant `ALU.OP_OR`. -/
def OP_OR : Int := 3

/-- Opcode constant `ALU.OP_XOR`. -/
def OP_XOR : Int := 4

/-- Opcode constant `ALU.OP_NOT`. -/
def OP_NOT : Int := 5

/-- `ALU._add`: raw sum, set Carry if it exceeds 255, truncate to 8 bits.
Takes and returns the flag state it may mutate. -/
def ALU.add (f : Flags) (a b : Nat) : Nat × Flags :=
  let result := a + b
  let f := if result > 255 then { f with C := true } else f
  (result % 256, f)

/-- `ALU._sub`: raw difference (possibly negative), set Carry on borrow
(`result < 0`), truncate to 8 bits (two's-complement wraparound). -/
def ALU.sub (f : Flags) (a b : Nat) : Nat × Flags :=
  let result : Int := (a : Int) - (b : Int)
  let f := if result < 0 then { f with C := true } else f
  ((result % 256).toNat, f)

/-- `ALU._and`: `(a & b) & 0xFF`. -/
def ALU.and (a b : Nat) : Nat := (a &&& b) % 256

/-- `ALU._or`: `(a | b) & 0xFF`. -/
def ALU.or (a b : Nat) : Nat := (a ||| b) % 256

/-- `ALU._xor`: `(a ^ b) & 0xFF`. -/
def ALU.xor (a b : Nat) : Nat := (a ^^^ b) % 256

/-- `ALU._not`: `(~a) & 0xFF`, where Python `~a = -a - 1`. -/
def ALU.not (a : Nat) : Nat := ((~~~(a : Int)) % 256).toNat

/-- Sign-bit extraction used by both overflow routines:
`(x & 0x80) >> 7`. -/
def sign (x : Nat) : Nat := (x &&& 0x80) >>> 7

/-- `ALU._calculate_overflow_add`: set V iff the operands have the same
sign bit and the stored result's sign bit differs. -/
def ALU.calculate_overflow_add (s : ALUState) (a b : Nat) : ALUState :=
  let sign_a := sign a
  let sign_b := sign b
  let sign_result := sign s.result
  if sign_a = sign_b ∧ sign_a ≠ sign_result then
    { s with flags := { s.flags with V := true } }
  else s

/-- `ALU._calculate_overflow_sub`: set V iff the operands have different
sign bits and the stored result's sign bit differs from `a`'s. -/
def ALU.calculate_overflow_sub (s : ALUState) (a b : Nat) : ALUState :=
  let sign_a := sign a
  let sign_b := sign b
  let sign_result := sign s.result
  if sign_a ≠ sign_b ∧ sign_a ≠ sign_result then
    { s with flags := { s.flags with V := true } }
  else s

/-- `ALU._calculate_flags`: set Z if the stored result is zero, set N if
its bit 7 is set, then run the overflow routine for ADD or SUB. -/
def ALU.calculate_flags (s : ALUState) (a b : Nat) (opcode : Int) : ALUState :=
  let s := if s.result = 0 then { s with flags := { s.flags with Z := true } } else s
  let s := if s.result &&& 0x80 ≠ 0 then { s with flags := { s.flags with N := true } } else s
  if opcode = OP_ADD then ALU.calculate_overflow_add s a b
  else if opcode = OP_SUB then ALU.calculate_overflow_sub s a b
  else s

/-- `ALU.execute`: mask both operands to 8 bits, reset all flags,
dispatch on the opcode (raising on an unknown one), recompute the
flags, and return `(self.result, self.flags.copy())` together with the
object's state after the call. -/
def ALU.execute (s : ALUState) (a b opcode : Int) :
    Except String (Nat × Flags) × ALUState :=
  let a : Nat := (a % 256).toNat
  let b : Nat := (b % 256).toNat
  let s : ALUState := { s with flags := flagsReset }
  let step : Except String ALUState :=
    if opcode = OP_ADD then
      let rf := ALU.add s.flags a b
      Except.ok { s with result := rf.1, flags := rf.2 }
    else if opcode = OP_SUB then
      let rf := ALU.sub s.flags a b
      Except.ok { s with result := rf.1, flags := rf.2 }
    else if opcode = OP_AND then Except.ok { s with result := ALU.and a b }
    else if opcode = OP_OR then Except.ok { s with result := ALU.or a b }
    else if opcode = OP_XOR then Except.ok { s with result := ALU.xor a b }
    else if opcode = OP_NOT then Except.ok { s with result := ALU.not a }
    else Except.error ("Opcode inválido: " ++ toString opcode)
  match step with
  | Except.ok s1 =>
    let s2 := ALU.calculate_flags s1 a b opcode
    (Except.ok (s2.result, s2.flags), s2)
  | Except.error e => (Except.error e, s)

/-! ### Post-states of the six opcodes

For the proofs it is convenient to name the object state reached by each
successful `execute` branch; each is definitionally equal to the
corresponding branch of `ALU.execute`. -/

/-- The 8-bit masking `x & 0xFF` applied by `execute` to its operands. -/
def mask8 (x : Int) : Nat := (x % 256).toNat

/-- State after `execute(a, b, OP_ADD)`. -/
def postAdd (a b : Int) : ALUState :=
  ALU.calculate_flags
    ⟨(mask8 a + mask8 b) % 256,
     if mask8 a + mask8 b > 255 then ⟨false, false, true, false⟩ else flagsReset⟩
    (mask8 a) (mask8 b) OP_ADD

/-- State after `execute(a, b, OP_SUB)`. -/
def postSub (a b : Int) : ALUState :=
  ALU.calculate_flags
    ⟨((((mask8 a : Int)) - ((mask8 b : Int))) % 256).toNat,
     if ((mask8 a : Int)) - ((mask8 b : Int)) < 0 then ⟨false, false, true, false⟩
     else flagsReset⟩
    (mask8 a) (mask8 b) OP_SUB

/-- State after `execute(a, b, op)` for a logical opcode whose handler
returned `r`. -/
def postLogic (r : Nat) (a b op : Int) : ALUState :=
  ALU.calculate_flags ⟨r, flagsReset⟩ (mask8 a) (mask8 b) op

example :
    (ALU.execute initState 200 100 OP_ADD).1 =
      Except.ok (44, ⟨false, false, true, false⟩) := rfl

example :
    (ALU.execute initState 100 50 OP_ADD).1 =
      Except.ok (150, ⟨false, true, false, true⟩) := rfl

example :
    (ALU.execute initState 5 10 OP_SUB).1 =
      Except.ok (251, ⟨false, true, true, false⟩) := rfl

example :
    (ALU.execute initState 10 10 OP_SUB).1 =
      Except.ok (0, ⟨true, false, false, false⟩) := rfl

example :
    (ALU.execute initState 172 240 OP_XOR).1 =
      Except.ok (92, ⟨false, false, false, false⟩) := rfl

example :
    (ALU.execute initState 255 0 OP_NOT).1 =
      Except.ok (0, ⟨true, false, false, false⟩) := rfl

/-! ## Helper lemmas -/

theorem mask_coe (a : Nat) (h : a < 256) : (((a : Int)) % 256).toNat = a := by
  omega

/-- The value returned by `execute` does not depend on the state the
object was in before the call. -/
theorem execute_fst_indep (s t : ALUState) (a b op : Int) :
    (ALU.execute s a b op).1 = (ALU.execute t a b op).1 := by
  simp only [ALU.execute]
  split_ifs <;> rfl

/-- `_calculate_flags` never changes the stored result. -/
theorem cf_result (s : ALUState) (a b : Nat) (op : Int) :
    (ALU.calculate_flags s a b op).result = s.result := by
  simp only [ALU.calculate_flags, ALU.calculate_overflow_add,
    ALU.calculate_overflow_sub]
  split_ifs <;> rfl

/-- `_calculate_flags` never changes the Carry flag. -/
theorem cf_C (s : ALUState) (a b : Nat) (op : Int) :
    (ALU.calculate_flags s a b op).flags.C = s.flags.C := by
  simp only [ALU.calculate_flags, ALU.calculate_overflow_add,
    ALU.calculate_overflow_sub]
  split_ifs <;> rfl

/-- `_calculate_flags` sets Z exactly when the stored result is zero. -/
theorem cf_Z (s : ALUState) (a b : Nat) (op : Int) :
    (ALU.calculate_flags s a b op).flags.Z =
      (s.flags.Z || decide (s.result = 0)) := by
  simp only [ALU.calculate_flags, ALU.calculate_overflow_add,
    ALU.calculate_overflow_sub]
  split_ifs <;> simp_all

/-- `_calculate_flags` sets N exactly when bit 7 of the stored result is
set. -/
theorem cf_N (s : ALUState) (a b : Nat) (op : Int) :
    (ALU.calculate_flags s a b op).flags.N =
      (s.flags.N || decide (s.result &&& 0x80 ≠ 0)) := by
  simp only [ALU.calculate_flags, ALU.calculate_overflow_add,
    ALU.calculate_overflow_sub]
  split_ifs <;> simp_all

/-- Overflow update for ADD, in terms of the sign bits. -/
theorem cf_V_add (s : ALUState) (a b : Nat) :
    (ALU.calculate_flags s a b OP_ADD).flags.V =
      (s.flags.V || decide (sign a = sign b ∧ sign a ≠ sign s.result)) := by
  simp only [ALU.calculate_flags, ALU.calculate_overflow_add, OP_ADD]
  by_cases hz : s.result = 0 <;> by_cases hn : s.result &&& 0x80 = 0 <;>
    by_cases hv : sign a = sign b ∧ sign a ≠ sign s.result <;>
      (simp [hz, hn, hv]; try (split_ifs <;> simp_all))

/-- Overflow update for SUB, in terms of the sign bits. -/
theorem cf_V_sub (s : ALUState) (a b : Nat) :
    (ALU.calculate_flags s a b OP_SUB).flags.V =
      (s.flags.V || decide (sign a ≠ sign b ∧ sign a ≠ sign s.result)) := by
  simp only [ALU.calculate_flags, ALU.calculate_overflow_sub, OP_SUB, OP_ADD]
  by_cases hz : s.result = 0 <;> by_cases hn : s.result &&& 0x80 = 0 <;>
    by_cases hv : sign a ≠ sign b ∧ sign a ≠ sign s.result <;>
      (simp [hz, hn, hv]; try (split_ifs <;> simp_all))

/-- For opcodes other than ADD and SUB, `_calculate_flags` leaves V
untouched. -/
theorem cf_V_other (s : ALUState) (a b : Nat) (op : Int)
    (h0 : op ≠ OP_ADD) (h1 : op ≠ OP_SUB) :
    (ALU.calculate_flags s a b op).flags.V = s.flags.V := by
  simp only [ALU.calculate_flags, ALU.calculate_overflow_add,
    ALU.calculate_overflow_sub]
  by_cases hz : s.result = 0 <;> by_cases hn : s.result &&& 0x80 = 0 <;>
    simp [hz, hn, h0, h1]

/-- An ADD call reaches exactly the state `postAdd a b` and returns its
result register and flags. -/
theorem execute_add_core (s : ALUState) (a b : Int) :
    ALU.execute s a b OP_ADD =
      (Except.ok ((postAdd a b).result, (postAdd a b).flags), postAdd a b) := rfl

/-- A SUB call reaches exactly the state `postSub a b` and returns its
result register and flags. -/
theorem execute_sub_core (s : ALUState) (a b : Int) :
    ALU.execute s a b OP_SUB =
      (Except.ok ((postSub a b).result, (postSub a b).flags), postSub a b) := rfl

/-- An AND call reaches exactly the state
`postLogic (mask8 a &&& mask8 b % 256) a b OP_AND`. -/
theorem execute_and_core (s : ALUState) (a b : Int) :
    ALU.execute s a b OP_AND =
      (Except.ok ((postLogic (ALU.and (mask8 a) (mask8 b)) a b OP_AND).result,
          (postLogic (ALU.and (mask8 a) (mask8 b)) a b OP_AND).flags),
        postLogic (ALU.and (mask8 a) (mask8 b)) a b OP_AND) := rfl

/-- An OR call reaches exactly its `postLogic` state. -/
theorem execute_or_core (s : ALUState) (a b : Int) :
    ALU.execute s a b OP_OR =
      (Except.ok ((postLogic (ALU.or (mask8 a) (mask8 b)) a b OP_OR).result,
          (postLogic (ALU.or (mask8 a) (mask8 b)) a b OP_OR).flags),
        postLogic (ALU.or (mask8 a) (mask8 b)) a b OP_OR) := rfl

/-- A XOR call reaches exactly its `postLogic` state. -/
theorem execute_xor_core (s : ALUState) (a b : Int) :
    ALU.execute s a b OP_XOR =
      (Except.ok ((postLogic (ALU.xor (mask8 a) (mask8 b)) a b OP_XOR).result,
          (postLogic (ALU.xor (mask8 a) (mask8 b)) a b OP_XOR).flags),
        postLogic (ALU.xor (mask8 a) (mask8 b)) a b OP_XOR) := rfl

/-- A NOT call reaches exactly its `postLogic` state; the handler only
sees operand `a`. -/
theorem execute_not_core (s : ALUState) (a b : Int) :
    ALU.execute s a b OP_NOT =
      (Except.ok ((postLogic (ALU.not (mask8 a)) a b OP_NOT).result,
          (postLogic (ALU.not (mask8 a)) a b OP_NOT).flags),
        postLogic (ALU.not (mask8 a)) a b OP_NOT) := rfl

/-- Masking is the identity on in-range operands. -/
theorem mask8_coe (a : Nat) (h : a < 256) : mask8 (a : Int) = a := by
  unfold mask8; omega

theorem postAdd_result (a b : Int) :
    (postAdd a b).result = (mask8 a + mask8 b) % 256 := by
  rw [postAdd, cf_result]

theorem postAdd_C (a b : Int) :
    (postAdd a b).flags.C = decide (mask8 a + mask8 b > 255) := by
  rw [postAdd, cf_C]
  split_ifs with h <;> simp [h, flagsReset]

theorem postAdd_Z (a b : Int) :
    (postAdd a b).flags.Z = decide ((mask8 a + mask8 b) % 256 = 0) := by
  rw [postAdd, cf_Z]
  split_ifs <;> simp [flagsReset]

theorem postAdd_N (a b : Int) :
    (postAdd a b).flags.N =
      decide ((mask8 a + mask8 b) % 256 &&& 0x80 ≠ 0) := by
  rw [postAdd, cf_N]
  split_ifs <;> simp [flagsReset]

theorem postAdd_V (a b : Int) :
    (postAdd a b).flags.V =
      decide (sign (mask8 a) = sign (mask8 b) ∧
        sign (mask8 a) ≠ sign ((mask8 a + mask8 b) % 256)) := by
  rw [postAdd, cf_V_add]
  split_ifs <;> simp [flagsReset]

theorem postSub_result (a b : Int) :
    (postSub a b).result = ((((mask8 a : Int)) - ((mask8 b : Int))) % 256).toNat := by
  rw [postSub, cf_result]

theorem postSub_C (a b : Int) :
    (postSub a b).flags.C = decide (((mask8 a : Int)) - ((mask8 b : Int)) < 0) := by
  rw [postSub, cf_C]
  split_ifs with h <;> simp [h, flagsReset]

theorem postSub_Z (a b : Int) :
    (postSub a b).flags.Z =
      decide (((((mask8 a : Int)) - ((mask8 b : Int))) % 256).toNat = 0) := by
  rw [postSub, cf_Z]
  split_ifs <;> simp [flagsReset]

theorem postSub_N (a b : Int) :
    (postSub a b).flags.N =
      decide (((((mask8 a : Int)) - ((mask8 b : Int))) % 256).toNat &&& 0x80 ≠ 0) := by
  rw [postSub, cf_N]
  split_ifs <;> simp [flagsReset]

theorem postSub_V (a b : Int) :
    (postSub a b).flags.V =
      decide (sign (mask8 a) ≠ sign (mask8 b) ∧
        sign (mask8 a) ≠
          sign (((((mask8 a : Int)) - ((mask8 b : Int))) % 256).toNat)) := by
  rw [postSub, cf_V_sub]
  split_ifs <;> simp [flagsReset]

theorem postLogic_result (r : Nat) (a b op : Int) :
    (postLogic r a b op).result = r := by
  rw [postLogic, cf_result]

theorem postLogic_C (r : Nat) (a b op : Int) :
    (postLogic r a b op).flags.C = false := by
  rw [postLogic, cf_C]
  rfl

theorem postLogic_Z (r : Nat) (a b op : Int) :
    (postLogic r a b op).flags.Z = decide (r = 0) := by
  rw [postLogic, cf_Z]
  simp [flagsReset]

theorem postLogic_N (r : Nat) (a b op : Int) :
    (postLogic r a b op).flags.N = decide (r &&& 0x80 ≠ 0) := by
  rw [postLogic, cf_N]
  simp [flagsReset]

theorem postLogic_V (r : Nat) (a b op : Int)
    (h0 : op ≠ OP_ADD) (h1 : op ≠ OP_SUB) :
    (postLogic r a b op).flags.V = false := by
  rw [postLogic, cf_V_other _ _ _ _ h0 h1]
  rfl

/-- For opcodes other than ADD and SUB the flag derivation ignores both
operands. -/
theorem cf_operand_indep (s : ALUState) (a b a' b' : Nat) (op : Int)
    (h0 : op ≠ OP_ADD) (h1 : op ≠ OP_SUB) :
    ALU.calculate_flags s a b op = ALU.calculate_flags s a' b' op := by
  simp only [ALU.calculate_flags]
  simp [h0, h1]

/-- For opcodes other than ADD and SUB the post-state ignores both
operands. -/
theorem postLogic_operand_indep (r : Nat) (a b a' b' op : Int)
    (h0 : op ≠ OP_ADD) (h1 : op ≠ OP_SUB) :
    postLogic r a b op = postLogic r a' b' op := by
  rw [postLogic, postLogic]
  exact cf_operand_indep _ _ _ _ _ _ h0 h1

/-- `execute` behaves identically on operands and on their 8-bit masks. -/
theorem execute_mask_eq (s : ALUState) (a b op : Int) :
    ALU.execute s a b op = ALU.execute s (a % 256) (b % 256) op := by
  simp only [ALU.execute]
  rw [Int.emod_emod_of_dvd a dvd_rfl, Int.emod_emod_of_dvd b dvd_rfl]

/-! ## The claims -/

/-- C1: for in-range operands, after ADD the Overflow flag is set iff
`sign(a) = sign(b)` and `sign(result) ≠ sign(a)`, and after SUB it is set
iff `sign(a) ≠ sign(b)` and `sign(result) ≠ sign(a)`, where the result is
the returned masked 8-bit result. -/
theorem claim_C1 (s : ALUState) (a b : Nat) (ha : a ≤ 255) (hb : b ≤ 255) :
    (∃ r f, (ALU.execute s (a : Int) (b : Int) OP_ADD).1 = Except.ok (r, f) ∧
      (f.V = true ↔ (sign a = sign b ∧ sign r ≠ sign a))) ∧
    (∃ r f, (ALU.execute s (a : Int) (b : Int) OP_SUB).1 = Except.ok (r, f) ∧
      (f.V = true ↔ (sign a ≠ sign b ∧ sign r ≠ sign a))) := by
  have hma := mask8_coe a (by omega)
  have hmb := mask8_coe b (by omega)
  constructor
  · refine ⟨(postAdd (a : Int) (b : Int)).result,
      (postAdd (a : Int) (b : Int)).flags, by rw [execute_add_core], ?_⟩
    rw [postAdd_V, postAdd_result, hma, hmb]
    simp only [decide_eq_true_eq]
    exact ⟨fun h => ⟨h.1, h.2.symm⟩, fun h => ⟨h.1, h.2.symm⟩⟩
  · refine ⟨(postSub (a : Int) (b : Int)).result,
      (postSub (a : Int) (b : Int)).flags, by rw [execute_sub_core], ?_⟩
    rw [postSub_V, postSub_result, hma, hmb]
    simp only [decide_eq_true_eq]
    exact ⟨fun h => ⟨h.1, h.2.symm⟩, fun h => ⟨h.1, h.2.symm⟩⟩

/-- Witness for C1 at `a = 100`, `b = 50`. -/
theorem claim_C1_witness :
    (∃ r f, (ALU.execute initState ((100 : Nat) : Int) ((50 : Nat) : Int)
        OP_ADD).1 = Except.ok (r, f) ∧
      (f.V = true ↔ (sign 100 = sign 50 ∧ sign r ≠ sign 100))) ∧
    (∃ r f, (ALU.execute initState ((100 : Nat) : Int) ((50 : Nat) : Int)
        OP_SUB).1 = Except.ok (r, f) ∧
      (f.V = true ↔ (sign 100 ≠ sign 50 ∧ sign r ≠ sign 100))) :=
  claim_C1 initState 100 50 (by decide) (by decide)

/-- C2: for in-range operands, ADD returns `(a + b) & 0xFF` and sets
Carry iff the raw sum exceeds 255. -/
theorem claim_C2 (s : ALUState) (a b : Nat) (ha : a ≤ 255) (hb : b ≤ 255) :
    ∃ f, (ALU.execute s (a : Int) (b : Int) OP_ADD).1 =
        Except.ok ((a + b) % 256, f) ∧ (f.C = true ↔ a + b > 255) := by
  have hma := mask8_coe a (by omega)
  have hmb := mask8_coe b (by omega)
  refine ⟨(postAdd (a : Int) (b : Int)).flags, ?_, ?_⟩
  · rw [execute_add_core, postAdd_result, hma, hmb]
  · rw [postAdd_C, hma, hmb]
    simp

/-- Witness for C2 at `a = 200`, `b = 100`. -/
theorem claim_C2_witness :
    ∃ f, (ALU.execute initState ((200 : Nat) : Int) ((100 : Nat) : Int)
        OP_ADD).1 = Except.ok ((200 + 100) % 256, f) ∧
      (f.C = true ↔ 200 + 100 > 255) :=
  claim_C2 initState 200 100 (by decide) (by decide)

/-- C3: for in-range operands, SUB returns `(a - b) & 0xFF`
(two's-complement wraparound of the raw integer difference) and sets
Carry iff a borrow occurred, i.e. iff `a < b`. -/
theorem claim_C3 (s : ALUState) (a b : Nat) (ha : a ≤ 255) (hb : b ≤ 255) :
    ∃ f, (ALU.execute s (a : Int) (b : Int) OP_SUB).1 =
        Except.ok (((((a : Int)) - ((b : Int))) % 256).toNat, f) ∧
      (f.C = true ↔ a < b) := by
  have hma := mask8_coe a (by omega)
  have hmb := mask8_coe b (by omega)
  refine ⟨(postSub (a : Int) (b : Int)).flags, ?_, ?_⟩
  · rw [execute_sub_core, postSub_result, hma, hmb]
  · rw [postSub_C, hma, hmb]
    simp only [decide_eq_true_eq]
    omega

/-- Witness for C3 at `a = 5`, `b = 10`. -/
theorem claim_C3_witness :
    ∃ f, (ALU.execute initState ((5 : Nat) : Int) ((10 : Nat) : Int)
        OP_SUB).1 = Except.ok (((((5 : Nat) : Int) - ((10 : Nat) : Int)) % 256).toNat, f) ∧
      (f.C = true ↔ (5 : Nat) < 10) :=
  claim_C3 initState 5 10 (by decide) (by decide)

/-- C4: for in-range operands, AND/OR/XOR return the bitwise result
masked to 8 bits, and for all four logical opcodes both Carry and
Overflow are false. -/
theorem claim_C4 (s : ALUState) (a b : Nat) (ha : a ≤ 255) (hb : b ≤ 255) :
    (∃ f, (ALU.execute s (a : Int) (b : Int) OP_AND).1 =
        Except.ok ((a &&& b) % 256, f)) ∧
    (∃ f, (ALU.execute s (a : Int) (b : Int) OP_OR).1 =
        Except.ok ((a ||| b) % 256, f)) ∧
    (∃ f, (ALU.execute s (a : Int) (b : Int) OP_XOR).1 =
        Except.ok ((a ^^^ b) % 256, f)) ∧
    (∀ op, (op = OP_AND ∨ op = OP_OR ∨ op = OP_XOR ∨ op = OP_NOT) →
      ∃ r f, (ALU.execute s (a : Int) (b : Int) op).1 = Except.ok (r, f) ∧
        f.C = false ∧ f.V = false) := by
  have hma := mask8_coe a (by omega)
  have hmb := mask8_coe b (by omega)
  refine ⟨⟨_, by rw [execute_and_core, hma, hmb, postLogic_result]; rfl⟩,
    ⟨_, by rw [execute_or_core, hma, hmb, postLogic_result]; rfl⟩,
    ⟨_, by rw [execute_xor_core, hma, hmb, postLogic_result]; rfl⟩, ?_⟩
  rintro op (rfl | rfl | rfl | rfl)
  · exact ⟨_, _, by rw [execute_and_core],
      postLogic_C _ _ _ _, postLogic_V _ _ _ _ (by decide) (by decide)⟩
  · exact ⟨_, _, by rw [execute_or_core],
      postLogic_C _ _ _ _, postLogic_V _ _ _ _ (by decide) (by decide)⟩
  · exact ⟨_, _, by rw [execute_xor_core],
      postLogic_C _ _ _ _, postLogic_V _ _ _ _ (by decide) (by decide)⟩
  · exact ⟨_, _, by rw [execute_not_core],
      postLogic_C _ _ _ _, postLogic_V _ _ _ _ (by decide) (by decide)⟩

/-- Witness for C4 at `a = 172`, `b = 240`. -/
theorem claim_C4_witness :
    (∃ f, (ALU.execute initState ((172 : Nat) : Int) ((240 : Nat) : Int)
        OP_AND).1 = Except.ok ((172 &&& 240) % 256, f)) ∧
    (∃ f, (ALU.execute initState ((172 : Nat) : Int) ((240 : Nat) : Int)
        OP_OR).1 = Except.ok ((172 ||| 240) % 256, f)) ∧
    (∃ f, (ALU.execute initState ((172 : Nat) : Int) ((240 : Nat) : Int)
        OP_XOR).1 = Except.ok ((172 ^^^ 240) % 256, f)) ∧
    (∀ op, (op = OP_AND ∨ op = OP_OR ∨ op = OP_XOR ∨ op = OP_NOT) →
      ∃ r f, (ALU.execute initState ((172 : Nat) : Int) ((240 : Nat) : Int)
          op).1 = Except.ok (r, f) ∧ f.C = false ∧ f.V = false) :=
  claim_C4 initState 172 240 (by decide) (by decide)

/-- C5: NOT returns `(~a) & 0xFF` and its returned `(result, flags)`
pair does not depend on the second operand at all. -/
theorem claim_C5 (s : ALUState) (a : Nat) (ha : a ≤ 255) (b b' : Int) :
    (ALU.execute s (a : Int) b OP_NOT).1 =
      (ALU.execute s (a : Int) b' OP_NOT).1 ∧
    (∃ f, (ALU.execute s (a : Int) b OP_NOT).1 =
      Except.ok (((~~~((a : Int))) % 256).toNat, f)) := by
  have hma := mask8_coe a (by omega)
  constructor
  · rw [execute_not_core, execute_not_core,
      postLogic_operand_indep _ (a : Int) b (a : Int) b' OP_NOT
        (by decide) (by decide)]
  · exact ⟨_, by rw [execute_not_core, hma, postLogic_result]; rfl⟩

/-- Witness for C5 at `a = 255`, `b = 0`, `b' = 7`. -/
theorem claim_C5_witness :
    (ALU.execute initState ((255 : Nat) : Int) 0 OP_NOT).1 =
      (ALU.execute initState ((255 : Nat) : Int) 7 OP_NOT).1 ∧
    (∃ f, (ALU.execute initState ((255 : Nat) : Int) 0 OP_NOT).1 =
      Except.ok (((~~~(((255 : Nat) : Int))) % 256).toNat, f)) :=
  claim_C5 initState 255 (by decide) 0 7

/-- C6: for any operands and any of the six valid opcodes, the returned
flags satisfy `Z ↔ result = 0` and `N ↔ result & 0x80 ≠ 0`. -/
theorem claim_C6 (s : ALUState) (a b op : Int)
    (h : op = OP_ADD ∨ op = OP_SUB ∨ op = OP_AND ∨ op = OP_OR ∨
      op = OP_XOR ∨ op = OP_NOT) :
    ∃ r f, (ALU.execute s a b op).1 = Except.ok (r, f) ∧
      (f.Z = true ↔ r = 0) ∧ (f.N = true ↔ r &&& 0x80 ≠ 0) := by
  rcases h with rfl | rfl | rfl | rfl | rfl | rfl
  · exact ⟨_, _, by rw [execute_add_core],
      by rw [postAdd_Z, postAdd_result]; simp,
      by rw [postAdd_N, postAdd_result]; simp⟩
  · exact ⟨_, _, by rw [execute_sub_core],
      by rw [postSub_Z, postSub_result]; simp,
      by rw [postSub_N, postSub_result]; simp⟩
  · exact ⟨_, _, by rw [execute_and_core],
      by rw [postLogic_Z, postLogic_result]; simp,
      by rw [postLogic_N, postLogic_result]; simp⟩
  · exact ⟨_, _, by rw [execute_or_core],
      by rw [postLogic_Z, postLogic_result]; simp,
      by rw [postLogic_N, postLogic_result]; simp⟩
  · exact ⟨_, _, by rw [execute_xor_core],
      by rw [postLogic_Z, postLogic_result]; simp,
      by rw [postLogic_N, postLogic_result]; simp⟩
  · exact ⟨_, _, by rw [execute_not_core],
      by rw [postLogic_Z, postLogic_result]; simp,
      by rw [postLogic_N, postLogic_result]; simp⟩

/-- Witness for C6 at `a = 10`, `b = 10`, opcode SUB. -/
theorem claim_C6_witness :
    ∃ r f, (ALU.execute initState 10 10 OP_SUB).1 = Except.ok (r, f) ∧
      (f.Z = true ↔ r = 0) ∧ (f.N = true ↔ r &&& 0x80 ≠ 0) :=
  claim_C6 initState 10 10 OP_SUB (Or.inr (Or.inl rfl))

/-- C7: for any integers `a`, `b` (also negative or out of range) and
any valid opcode, `execute` returns exactly what it returns on the
8-bit-masked operands, and never rejects the call. -/
theorem claim_C7 (s : ALUState) (a b op : Int)
    (h : op = OP_ADD ∨ op = OP_SUB ∨ op = OP_AND ∨ op = OP_OR ∨
      op = OP_XOR ∨ op = OP_NOT) :
    (ALU.execute s a b op).1 = (ALU.execute s (a % 256) (b % 256) op).1 ∧
    ∃ r f, (ALU.execute s a b op).1 = Except.ok (r, f) := by
  refine ⟨by rw [execute_mask_eq], ?_⟩
  rcases h with rfl | rfl | rfl | rfl | rfl | rfl
  · exact ⟨_, _, by rw [execute_add_core]⟩
  · exact ⟨_, _, by rw [execute_sub_core]⟩
  · exact ⟨_, _, by rw [execute_and_core]⟩
  · exact ⟨_, _, by rw [execute_or_core]⟩
  · exact ⟨_, _, by rw [execute_xor_core]⟩
  · exact ⟨_, _, by rw [execute_not_core]⟩

/-- Witness for C7 at `a = 300`, `b = -1`, opcode ADD. -/
theorem claim_C7_witness :
    (ALU.execute initState 300 (-1) OP_ADD).1 =
      (ALU.execute initState (300 % 256) ((-1) % 256) OP_ADD).1 ∧
    ∃ r f, (ALU.execute initState 300 (-1) OP_ADD).1 = Except.ok (r, f) :=
  claim_C7 initState 300 (-1) OP_ADD (Or.inl rfl)

/-- C8: `execute` is deterministic and state-independent — the returned
`(result, flags)` does not depend on the object's prior result/flag
state, and calling `execute` twice in a row with the same inputs yields
the same return value both times. -/
theorem claim_C8 (s1 s2 : ALUState) (a b op : Int)
    (h : op = OP_ADD ∨ op = OP_SUB ∨ op = OP_AND ∨ op = OP_OR ∨
      op = OP_XOR ∨ op = OP_NOT) :
    (ALU.execute s1 a b op).1 = (ALU.execute s2 a b op).1 ∧
    (ALU.execute (ALU.execute s1 a b op).2 a b op).1 =
      (ALU.execute s1 a b op).1 :=
  ⟨execute_fst_indep s1 s2 a b op,
   execute_fst_indep (ALU.execute s1 a b op).2 s1 a b op⟩

/-- Witness for C8 with a dirty second state and opcode ADD. -/
theorem claim_C8_witness :
    (ALU.execute initState 1 2 OP_ADD).1 =
      (ALU.execute ⟨44, ⟨true, true, true, true⟩⟩ 1 2 OP_ADD).1 ∧
    (ALU.execute (ALU.execute initState 1 2 OP_ADD).2 1 2 OP_ADD).1 =
      (ALU.execute initState 1 2 OP_ADD).1 :=
  claim_C8 initState ⟨44, ⟨true, true, true, true⟩⟩ 1 2 OP_ADD (Or.inl rfl)

/-- C9: any opcode outside 0..5 makes `execute` fail with the
invalid-opcode error instead of returning a result. -/
theorem claim_C9 (s : ALUState) (a b op : Int) (h : op < 0 ∨ 5 < op) :
    (ALU.execute s a b op).1 =
      Except.error ("Opcode inválido: " ++ toString op) := by
  have h0 : ¬ op = OP_ADD := by simp only [OP_ADD]; omega
  have h1 : ¬ op = OP_SUB := by simp only [OP_SUB]; omega
  have h2 : ¬ op = OP_AND := by simp only [OP_AND]; omega
  have h3 : ¬ op = OP_OR := by simp only [OP_OR]; omega
  have h4 : ¬ op = OP_XOR := by simp only [OP_XOR]; omega
  have h5 : ¬ op = OP_NOT := by simp only [OP_NOT]; omega
  simp only [ALU.execute]
  simp [h0, h1, h2, h3, h4, h5]

/-- Witness for C9 at opcode 6. -/
theorem claim_C9_witness :
    (ALU.execute initState 1 2 6).1 =
      Except.error ("Opcode inválido: " ++ toString (6 : Int)) :=
  claim_C9 initState 1 2 6 (Or.inr (by decide))

/-- C10: on an invalid opcode the state update is not atomic — the
stored result keeps its old value while the stored flags have already
been reset to all-false when the error is raised. -/
theorem claim_C10 (s : ALUState) (a b op : Int) (h : op < 0 ∨ 5 < op) :
    (ALU.execute s a b op).2 =
      { result := s.result, flags := ⟨false, false, false, false⟩ } := by
  have h0 : ¬ op = OP_ADD := by simp only [OP_ADD]; omega
  have h1 : ¬ op = OP_SUB := by simp only [OP_SUB]; omega
  have h2 : ¬ op = OP_AND := by simp only [OP_AND]; omega
  have h3 : ¬ op = OP_OR := by simp only [OP_OR]; omega
  have h4 : ¬ op = OP_XOR := by simp only [OP_XOR]; omega
  have h5 : ¬ op = OP_NOT := by simp only [OP_NOT]; omega
  simp only [ALU.execute]
  simp [h0, h1, h2, h3, h4, h5, flagsReset]

/-- Witness for C10 at opcode -1 with a dirty starting state. -/
theorem claim_C10_witness :
    (ALU.execute ⟨99, ⟨true, false, true, false⟩⟩ 1 2 (-1)).2 =
      { result := 99, flags := ⟨false, false, false, false⟩ } :=
  claim_C10 ⟨99, ⟨true, false, true, false⟩⟩ 1 2 (-1) (Or.inl (by decide))

end ALUSim
